import Mathlib

/-!
Verification of the safety-score-agent scoring core.

This file shallow-embeds the deterministic scoring pipeline of the
repository: the three category score calculators
(`calculate_safety_score` in `crime_agent/tool.py`,
`calculate_infrastructure_score` in `infra_agent/tool.py`,
`calculate_law_enforcement_score` in `law_agent/tool.py`), the Crime
risk classifier `analyze_travel_safety_risks`, the fallback/default
data bundles, and the composite scorer
(`validate_scores`, `calculate_total_score`, `get_safety_level` in
`synthesizer_agent/agent.py`).

Python dictionaries with optional keys are embedded as structures with
`Option` fields; `dict.get(k, default)` becomes `Option.getD`.
Numbers are embedded as rationals; Python's `round(x, 1)` (banker's
rounding to one decimal) is embedded as `round1` below, built on
round-half-to-even.
-/

/-- Round-half-to-even of a rational to an integer, the rounding mode of
Python's builtin `round`. -/
def roundHalfEven (q : ℚ) : ℤ :=
  if q - ⌊q⌋ < 1/2 then ⌊q⌋
  else if 1/2 < q - ⌊q⌋ then ⌊q⌋ + 1
  else if 2 ∣ ⌊q⌋ then ⌊q⌋ else ⌊q⌋ + 1

/-- Python's `round(q, 1)`: round to one decimal place, half to even. -/
def round1 (q : ℚ) : ℚ := (roundHalfEven (10 * q) : ℚ) / 10

/-- Shared tail of all three category calculators: the unweighted mean of
the component scores rounded to one decimal, or the category default when
no component is available. -/
def averageScore (components : List ℚ) (default : ℚ) : ℚ :=
  if components = [] then default
  else round1 (components.sum / components.length)

/-! ## Crime category (`crime_agent/tool.py`) -/

/-- The `numbeo_data` sub-dictionary consumed by the Crime evaluator. -/
structure NumbeoData where
  crime_index : Option ℚ := none
  safety_index : Option ℚ := none
  violent_crime_level : Option String := none
  property_crime_level : Option String := none
  pickpocket_probability : Option String := none
  theft_probability : Option String := none
  assault_probability : Option String := none
  data_source : Option String := none
deriving Repr, DecidableEq

/-- The `global_peace_index` sub-dictionary consumed by the Crime evaluator. -/
structure GpiCrimeData where
  peace_score : Option ℚ := none
deriving Repr, DecidableEq

/-- The `unodc_homicide_rate` sub-dictionary consumed by the Crime evaluator. -/
structure UnodcData where
  homicide_rate_per_100k : Option ℚ := none
deriving Repr, DecidableEq

/-- The crime-data dictionary passed to `calculate_safety_score` and
`analyze_travel_safety_risks`; any provider section may be absent. -/
structure CrimeData where
  numbeo_data : Option NumbeoData := none
  global_peace_index : Option GpiCrimeData := none
  unodc_homicide_rate : Option UnodcData := none
deriving Repr, DecidableEq

/-- `get_fallback_numbeo_data` in `crime_agent/tool.py`: the fixed bundle
returned when Numbeo cannot be reached (the volatile `note`/`last_updated`
fields are omitted). -/
def get_fallback_numbeo_data (_country : String) : NumbeoData :=
  { crime_index := some 50
    safety_index := some 50
    violent_crime_level := some "Unknown"
    property_crime_level := some "Unknown"
    pickpocket_probability := some "Unknown"
    theft_probability := some "Unknown"
    assault_probability := some "Unknown"
    data_source := some "Fallback Data (Numbeo unavailable)" }

/-- The homicide component inside `calculate_safety_score`:
`max(0, 100 - (homicide_rate * 10))`. -/
def crime_homicide_component (rate : ℚ) : ℚ := max 0 (100 - rate * 10)

/-- The peace-score component inside `calculate_safety_score`:
`max(0, 100 - (peace_score * 20))`. -/
def crime_peace_component (peace_score : ℚ) : ℚ := max 0 (100 - peace_score * 20)

/-- The `score_components` list accumulated by `calculate_safety_score`,
in source order: Numbeo safety index, peace score, homicide rate.  A
component is present exactly when its provider section and its metric
key are both present (Python's `if key in dict and subkey in subdict`). -/
def crime_score_components (d : CrimeData) : List ℚ :=
  (d.numbeo_data.bind NumbeoData.safety_index).toList ++
  ((d.global_peace_index.bind GpiCrimeData.peace_score).map
    crime_peace_component).toList ++
  ((d.unodc_homicide_rate.bind UnodcData.homicide_rate_per_100k).map
    crime_homicide_component).toList

/-- `calculate_safety_score` in `crime_agent/tool.py`: mean of the
available components on a 0-100 scale, rounded to one decimal;
`50.0` when no component is available. -/
def calculate_safety_score (crime_data : CrimeData) : ℚ :=
  averageScore (crime_score_components crime_data) 50

/-- Result record of `analyze_travel_safety_risks`. -/
structure TravelSafetyAnalysis where
  violent_crime_risk : String
  petty_crime_risk : String
  specific_risks : List String
  recommendations : List String
deriving Repr, DecidableEq

/-- Python's `x in ["High", "Very High"]` test on an optional string. -/
def is_high_or_very_high (o : Option String) : Bool :=
  o == some "High" || o == some "Very High"

/-- `analyze_travel_safety_risks` in `crime_agent/tool.py`: the Crime risk
classifier, applying the Numbeo category levels and then the homicide-rate
thresholds (>10 high, >5 medium). -/
def analyze_travel_safety_risks (crime_data : CrimeData) : TravelSafetyAnalysis :=
  let a0 : TravelSafetyAnalysis :=
    { violent_crime_risk := "低", petty_crime_risk := "中"
      specific_risks := [], recommendations := [] }
  let a1 :=
    match crime_data.numbeo_data with
    | none => a0
    | some n =>
      let b0 :=
        if is_high_or_very_high n.pickpocket_probability then
          { a0 with
            specific_risks := a0.specific_risks ++ ["スリ・置き引きのリスクが高い"]
            recommendations := a0.recommendations ++
              ["貴重品は分散して携帯し、混雑した場所では特に注意"] }
        else a0
      let b1 :=
        if is_high_or_very_high n.theft_probability then
          { b0 with
            specific_risks := b0.specific_risks ++ ["窃盗被害のリスクが高い"]
            recommendations := b0.recommendations ++
              ["ホテルのセーフティボックスを活用し、車内に荷物を残さない"] }
        else b0
      if is_high_or_very_high n.assault_probability then
        { b1 with
          violent_crime_risk := "高"
          specific_risks := b1.specific_risks ++ ["暴行事件のリスクが高い"]
          recommendations := b1.recommendations ++
            ["夜間の外出を控え、人通りの少ない場所を避ける"] }
      else b1
  match crime_data.unodc_homicide_rate with
  | none => a1
  | some u =>
    let rate := u.homicide_rate_per_100k.getD 0
    if 10 < rate then
      { a1 with
        violent_crime_risk := "高"
        specific_risks := a1.specific_risks ++ ["殺人事件の発生率が高い"]
        recommendations := a1.recommendations ++
          ["危険地域を事前に把握し、絶対に近づかない"] }
    else if 5 < rate then
      { a1 with violent_crime_risk := "中" }
    else a1

/-! ## Infrastructure category (`infra_agent/tool.py`) -/

/-- The `corruption_perception_index` sub-dictionary. -/
structure CorruptionData where
  cpi_score : Option ℚ := none
  data_source : Option String := none
deriving Repr, DecidableEq

/-- The `traffic_safety_data` sub-dictionary. -/
structure TrafficData where
  road_traffic_deaths_per_100k : Option ℚ := none
  data_source : Option String := none
deriving Repr, DecidableEq

/-- The `healthcare_system` sub-dictionary (its fallback carries a
`data_sources` list rather than a single `data_source` string). -/
structure HealthcareData where
  healthcare_access_quality_index : Option ℚ := none
  data_sources : List String := []
deriving Repr, DecidableEq

/-- The infrastructure-data dictionary passed to
`calculate_infrastructure_score`; any provider section may be absent. -/
structure InfraData where
  corruption_perception_index : Option CorruptionData := none
  traffic_safety_data : Option TrafficData := none
  healthcare_system : Option HealthcareData := none
deriving Repr, DecidableEq

/-- `get_fallback_corruption_data` in `infra_agent/tool.py`. -/
def get_fallback_corruption_data (_country : String) : CorruptionData :=
  { cpi_score := some 65
    data_source := some "Fallback Data (Scraping Failed)" }

/-- `get_fallback_traffic_data` in `infra_agent/tool.py`. -/
def get_fallback_traffic_data (_country : String) : TrafficData :=
  { road_traffic_deaths_per_100k := some 12
    data_source := some "Fallback Data (Scraping Failed)" }

/-- `get_fallback_healthcare_data` in `infra_agent/tool.py`. -/
def get_fallback_healthcare_data (_country : String) : HealthcareData :=
  { healthcare_access_quality_index := some 65
    data_sources := ["Fallback Data (Scraping Failed)"] }

/-- The `score_components` list accumulated by
`calculate_infrastructure_score`, in source order: political stability
(CPI), transport safety, healthcare quality.  Missing sub-keys take the
source defaults 50, 15 and 50. -/
def infra_score_components (d : InfraData) : List ℚ :=
  (d.corruption_perception_index.map
    (fun c => (c.cpi_score.getD 50) / 100 * 25)).toList ++
  (d.traffic_safety_data.map
    (fun t => max 0 (25 - (t.road_traffic_deaths_per_100k.getD 15) * 25 / 30))).toList ++
  (d.healthcare_system.map
    (fun h => (h.healthcare_access_quality_index.getD 50) / 100 * 25)).toList

/-- `calculate_infrastructure_score` in `infra_agent/tool.py`: mean of the
available components on a 0-25 scale, rounded to one decimal; `12.5` when
no component is available. -/
def calculate_infrastructure_score (infra_data : InfraData) : ℚ :=
  averageScore (infra_score_components infra_data) (25/2)

/-! ## Law-enforcement category (`law_agent/tool.py`) -/

/-- The `global_peace_index_data` sub-dictionary. -/
structure GpiLawData where
  police_reliability_score : Option ℚ := none
  data_source : Option String := none
deriving Repr, DecidableEq

/-- The `world_bank_governance` sub-dictionary. -/
structure WorldBankData where
  rule_of_law_percentile : Option ℚ := none
  data_source : Option String := none
deriving Repr, DecidableEq

/-- The `police_trust_indicators` sub-dictionary. -/
structure PoliceTrustData where
  public_trust_in_police : Option ℚ := none
  corruption_in_police_force : Option ℚ := none
deriving Repr, DecidableEq

/-- The law-enforcement-data dictionary passed to
`calculate_law_enforcement_score`; any provider section may be absent. -/
structure LawData where
  global_peace_index_data : Option GpiLawData := none
  world_bank_governance : Option WorldBankData := none
  police_trust_indicators : Option PoliceTrustData := none
deriving Repr, DecidableEq

/-- `get_default_gpi_data` in `law_agent/tool.py` (scoring-relevant fields). -/
def get_default_gpi_data (_country : String) : GpiLawData :=
  { police_reliability_score := some (5/2)
    data_source := some "Default GPI estimates" }

/-- `get_default_worldbank_data` in `law_agent/tool.py`
(scoring-relevant fields). -/
def get_default_worldbank_data (_country : String) : WorldBankData :=
  { rule_of_law_percentile := some 60
    data_source := some "Default World Bank estimates" }

/-- The `score_components` list accumulated by
`calculate_law_enforcement_score`, in source order: police reliability
(GPI 1-5 scale, lower better), rule of law percentile, police trust.
Missing sub-keys take the source defaults 3.0, 50, 50 and 50. -/
def law_score_components (d : LawData) : List ℚ :=
  (d.global_peace_index_data.map
    (fun g => max 0 (25 - ((g.police_reliability_score.getD 3) - 1) * (25/4)))).toList ++
  (d.world_bank_governance.map
    (fun w => (w.rule_of_law_percentile.getD 50) / 100 * 25)).toList ++
  (d.police_trust_indicators.map
    (fun p => (p.public_trust_in_police.getD 50) / 100 * (25/2) +
              (100 - (p.corruption_in_police_force.getD 50)) / 100 * (25/2))).toList

/-- `calculate_law_enforcement_score` in `law_agent/tool.py`: mean of the
available components on a 0-25 scale, rounded to one decimal; `12.5` when
no component is available. -/
def calculate_law_enforcement_score (law_data : LawData) : ℚ :=
  averageScore (law_score_components law_data) (25/2)

/-! ## Composite scorer (`synthesizer_agent/agent.py`) -/

def MAX_SCORE_PER_CATEGORY : ℚ := 25
def NUM_CATEGORIES : Nat := 4

def THRESHOLD_EXCELLENT : ℚ := 90
def THRESHOLD_GOOD : ℚ := 70
def THRESHOLD_AVERAGE : ℚ := 50
def THRESHOLD_CAUTION : ℚ := 30

def LEVEL_EXCELLENT : String := "優秀"
def LEVEL_GOOD : String := "良好"
def LEVEL_AVERAGE : String := "普通"
def LEVEL_CAUTION : String := "注意"
def LEVEL_DANGEROUS : String := "危険"

/-- `SafetyScoreSynthesizerAgent.get_safety_level`: bucket the total score
scanning thresholds from the highest down. -/
def get_safety_level (total_score : ℚ) : String :=
  if THRESHOLD_EXCELLENT ≤ total_score then LEVEL_EXCELLENT
  else if THRESHOLD_GOOD ≤ total_score then LEVEL_GOOD
  else if THRESHOLD_AVERAGE ≤ total_score then LEVEL_AVERAGE
  else if THRESHOLD_CAUTION ≤ total_score then LEVEL_CAUTION
  else LEVEL_DANGEROUS

/-- `SafetyScoreSynthesizerAgent.validate_scores`: the scores dictionary
(embedded as an association list) must have exactly `NUM_CATEGORIES`
entries, each value within `[0, MAX_SCORE_PER_CATEGORY]`. -/
def validate_scores (scores : List (String × ℚ)) : Bool :=
  scores.length == NUM_CATEGORIES &&
    scores.all (fun p => decide (0 ≤ p.2) && decide (p.2 ≤ MAX_SCORE_PER_CATEGORY))

/-- `SafetyScoreSynthesizerAgent.calculate_total_score`: sum of the four
category scores; `none` models the `ValueError` raised on invalid input. -/
def calculate_total_score (scores : List (String × ℚ)) : Option ℚ :=
  if validate_scores scores then some (scores.map Prod.snd).sum else none

/-! ## Properties of the rounding model -/

theorem le_roundHalfEven (q : ℚ) : ⌊q⌋ ≤ roundHalfEven q := by
  unfold roundHalfEven
  split_ifs <;> omega

theorem roundHalfEven_le (q : ℚ) : roundHalfEven q ≤ ⌊q⌋ + 1 := by
  unfold roundHalfEven
  split_ifs <;> omega

theorem roundHalfEven_mono {x y : ℚ} (h : x ≤ y) :
    roundHalfEven x ≤ roundHalfEven y := by
  have hf : ⌊x⌋ ≤ ⌊y⌋ := Int.floor_le_floor h
  rcases lt_or_eq_of_le hf with hlt | heq
  · calc roundHalfEven x ≤ ⌊x⌋ + 1 := roundHalfEven_le x
      _ ≤ ⌊y⌋ := by omega
      _ ≤ roundHalfEven y := le_roundHalfEven y
  · unfold roundHalfEven
    rw [← heq]
    split_ifs <;> first | omega | (exfalso; linarith)

theorem roundHalfEven_intCast (n : ℤ) : roundHalfEven (n : ℚ) = n := by
  unfold roundHalfEven
  rw [Int.floor_intCast]
  simp

theorem round1_mono {x y : ℚ} (h : x ≤ y) : round1 x ≤ round1 y := by
  unfold round1
  have h10 : (10 : ℚ) * x ≤ 10 * y := by linarith
  have := roundHalfEven_mono h10
  have hcast : ((roundHalfEven (10 * x) : ℤ) : ℚ) ≤ ((roundHalfEven (10 * y) : ℤ) : ℚ) :=
    Int.cast_le.mpr this
  have hpos : (0 : ℚ) ≤ 10 := by norm_num
  exact div_le_div_of_nonneg_right hcast hpos |>.trans_eq rfl

theorem round1_div10_int (n : ℤ) : round1 ((n : ℚ) / 10) = (n : ℚ) / 10 := by
  unfold round1
  rw [show (10 : ℚ) * ((n : ℚ) / 10) = (n : ℚ) by field_simp]
  rw [roundHalfEven_intCast]

/-! ## Properties of the shared mean-of-components rule -/

theorem averageScore_bounds {lo hi : ℚ} (l : List ℚ) (d : ℚ)
    (hl : ∀ x ∈ l, lo ≤ x ∧ x ≤ hi)
    (hdlo : lo ≤ d) (hdhi : d ≤ hi)
    (hrlo : round1 lo = lo) (hrhi : round1 hi = hi) :
    lo ≤ averageScore l d ∧ averageScore l d ≤ hi := by
  unfold averageScore
  split_ifs with h
  · exact ⟨hdlo, hdhi⟩
  · have hlen0 : 0 < l.length := List.length_pos.mpr h
    have hlenQ : (0 : ℚ) < l.length := by exact_mod_cast hlen0
    have hsum_hi : l.sum ≤ (l.length : ℚ) * hi := by
      have := List.sum_le_card_nsmul l hi (fun x hx => (hl x hx).2)
      simpa [nsmul_eq_mul] using this
    have hsum_lo : (l.length : ℚ) * lo ≤ l.sum := by
      have := List.card_nsmul_le_sum l lo (fun x hx => (hl x hx).1)
      simpa [nsmul_eq_mul] using this
    constructor
    · have hmean : lo ≤ l.sum / l.length := by
        rw [le_div_iff₀ hlenQ]; linarith
      calc lo = round1 lo := hrlo.symm
        _ ≤ round1 (l.sum / l.length) := round1_mono hmean
    · have hmean : l.sum / l.length ≤ hi := by
        rw [div_le_iff₀ hlenQ]; linarith
      calc round1 (l.sum / l.length) ≤ round1 hi := round1_mono hmean
        _ = hi := hrhi

theorem averageScore_mono {l1 l2 : List ℚ} (d : ℚ)
    (hlen : l1.length = l2.length) (hsum : l1.sum ≤ l2.sum) :
    averageScore l1 d ≤ averageScore l2 d := by
  unfold averageScore
  have hiff : l1 = [] ↔ l2 = [] := by
    constructor <;> intro h <;>
      [exact List.length_eq_zero.mp (by rw [← hlen, h]; rfl);
       exact List.length_eq_zero.mp (by rw [hlen, h]; rfl)]
  split_ifs with h1 h2 h2
  · exact le_refl d
  · exact absurd (hiff.mp h1) h2
  · exact absurd (hiff.mpr h2) h1
  · rw [hlen]
    apply round1_mono
    have hlen2 : 0 < l2.length := List.length_pos.mpr h2
    have hlenQ : (0 : ℚ) < l2.length := by exact_mod_cast hlen2
    exact div_le_div_of_nonneg_right hsum (le_of_lt hlenQ) |>.trans_eq rfl

/-! ## Valid provider metrics -/

/-- A rational option whose present value satisfies `P` yields a `getD`
value satisfying `P` whenever the default does. -/
theorem Option.getD_prop (o : Option ℚ) (dflt : ℚ) (P : ℚ → Prop)
    (hd : P dflt) (h : ∀ v ∈ o, P v) : P (o.getD dflt) := by
  cases o with
  | none => simpa using hd
  | some a => simpa using h a rfl

/-- Valid raw metrics for the Crime evaluator: Numbeo safety index on a
0-100 scale, Global Peace Index score on its 1-5 scale, nonnegative
homicide rate. -/
def ValidCrimeData (d : CrimeData) : Prop :=
  (∀ n ∈ d.numbeo_data, ∀ s ∈ n.safety_index, 0 ≤ s ∧ s ≤ 100) ∧
  (∀ g ∈ d.global_peace_index, ∀ p ∈ g.peace_score, 1 ≤ p ∧ p ≤ 5) ∧
  (∀ u ∈ d.unodc_homicide_rate, ∀ r ∈ u.homicide_rate_per_100k, 0 ≤ r)

/-- Valid raw metrics for the Infrastructure evaluator: CPI on a 0-100
scale, nonnegative traffic death rate, healthcare index on a 0-100 scale. -/
def ValidInfraData (d : InfraData) : Prop :=
  (∀ c ∈ d.corruption_perception_index, ∀ v ∈ c.cpi_score, 0 ≤ v ∧ v ≤ 100) ∧
  (∀ t ∈ d.traffic_safety_data, ∀ v ∈ t.road_traffic_deaths_per_100k, 0 ≤ v) ∧
  (∀ h ∈ d.healthcare_system,
    ∀ v ∈ h.healthcare_access_quality_index, 0 ≤ v ∧ v ≤ 100)

/-- Valid raw metrics for the Law-Enforcement evaluator: GPI police
reliability on its 1-5 scale, rule-of-law percentile and the two police
trust metrics on 0-100 scales. -/
def ValidLawData (d : LawData) : Prop :=
  (∀ g ∈ d.global_peace_index_data,
    ∀ v ∈ g.police_reliability_score, 1 ≤ v ∧ v ≤ 5) ∧
  (∀ w ∈ d.world_bank_governance,
    ∀ v ∈ w.rule_of_law_percentile, 0 ≤ v ∧ v ≤ 100) ∧
  (∀ p ∈ d.police_trust_indicators,
    (∀ v ∈ p.public_trust_in_police, 0 ≤ v ∧ v ≤ 100) ∧
    (∀ v ∈ p.corruption_in_police_force, 0 ≤ v ∧ v ≤ 100))

theorem crime_components_bounds {d : CrimeData} (hv : ValidCrimeData d) :
    ∀ x ∈ crime_score_components d, 0 ≤ x ∧ x ≤ 100 := by
  obtain ⟨h1, h2, h3⟩ := hv
  intro x hx
  unfold crime_score_components at hx
  simp only [List.mem_append, Option.mem_toList, Option.mem_def,
    Option.bind_eq_some, Option.map_eq_some'] at hx
  rcases hx with (⟨n, hn, hs⟩ | ⟨p, ⟨g, hg, hp⟩, hx⟩) | ⟨r, ⟨u, hu, hr⟩, hx⟩
  · exact h1 n hn x hs
  · obtain ⟨hp1, hp2⟩ := h2 g hg p hp
    subst hx
    unfold crime_peace_component
    constructor
    · exact le_max_left _ _
    · apply max_le (by norm_num) (by linarith)
  · have hr0 := h3 u hu r hr
    subst hx
    unfold crime_homicide_component
    constructor
    · exact le_max_left _ _
    · apply max_le (by norm_num) (by linarith)

theorem infra_components_bounds {d : InfraData} (hv : ValidInfraData d) :
    ∀ x ∈ infra_score_components d, 0 ≤ x ∧ x ≤ 25 := by
  obtain ⟨h1, h2, h3⟩ := hv
  intro x hx
  unfold infra_score_components at hx
  simp only [List.mem_append, Option.mem_toList, Option.mem_def,
    Option.map_eq_some'] at hx
  rcases hx with (⟨c, hc, hx⟩ | ⟨t, ht, hx⟩) | ⟨h, hh, hx⟩
  · subst hx
    have := Option.getD_prop c.cpi_score 50 (fun v => 0 ≤ v ∧ v ≤ 100)
      (by norm_num) (h1 c hc)
    constructor <;> [linarith [this.1]; linarith [this.2]]
  · subst hx
    have := Option.getD_prop t.road_traffic_deaths_per_100k 15 (fun v => 0 ≤ v)
      (by norm_num) (h2 t ht)
    constructor
    · exact le_max_left _ _
    · apply max_le (by norm_num) (by linarith)
  · subst hx
    have := Option.getD_prop h.healthcare_access_quality_index 50
      (fun v => 0 ≤ v ∧ v ≤ 100) (by norm_num) (h3 h hh)
    constructor <;> [linarith [this.1]; linarith [this.2]]

theorem law_components_bounds {d : LawData} (hv : ValidLawData d) :
    ∀ x ∈ law_score_components d, 0 ≤ x ∧ x ≤ 25 := by
  obtain ⟨h1, h2, h3⟩ := hv
  intro x hx
  unfold law_score_components at hx
  simp only [List.mem_append, Option.mem_toList, Option.mem_def,
    Option.map_eq_some'] at hx
  rcases hx with (⟨g, hg, hx⟩ | ⟨w, hw, hx⟩) | ⟨p, hp, hx⟩
  · subst hx
    have := Option.getD_prop g.police_reliability_score 3 (fun v => 1 ≤ v ∧ v ≤ 5)
      (by norm_num) (h1 g hg)
    constructor
    · exact le_max_left _ _
    · apply max_le (by norm_num) (by linarith [this.1])
  · subst hx
    have := Option.getD_prop w.rule_of_law_percentile 50 (fun v => 0 ≤ v ∧ v ≤ 100)
      (by norm_num) (h2 w hw)
    constructor <;> [linarith [this.1]; linarith [this.2]]
  · subst hx
    obtain ⟨hp1, hp2⟩ := h3 p hp
    have ht := Option.getD_prop p.public_trust_in_police 50
      (fun v => 0 ≤ v ∧ v ≤ 100) (by norm_num) hp1
    have hc := Option.getD_prop p.corruption_in_police_force 50
      (fun v => 0 ≤ v ∧ v ≤ 100) (by norm_num) hp2
    constructor <;> linarith [ht.1, ht.2, hc.1, hc.2]

/-! ## Round-stability of the scale endpoints -/

theorem round1_zero : round1 0 = 0 := by
  norm_num [round1, roundHalfEven]

theorem round1_25 : round1 25 = 25 := by
  norm_num [round1, roundHalfEven]

theorem round1_100 : round1 100 = 100 := by
  norm_num [round1, roundHalfEven]

/-! ## Claim theorems -/

/-- C1 counterexample: the Crime calculator works on its internal 0-100
scale, so a perfectly valid input (Numbeo safety index 50) yields an
overall score of 50, violating the claimed `[0, 25]` bound. -/
theorem crime_score_exceeds_25 :
    ValidCrimeData { numbeo_data := some { safety_index := some 50 } } ∧
    calculate_safety_score { numbeo_data := some { safety_index := some 50 } } = 50 ∧
    ¬ calculate_safety_score { numbeo_data := some { safety_index := some 50 } } ≤ 25 := by
  refine ⟨?_, ?_, ?_⟩
  · simp [ValidCrimeData]; norm_num
  · norm_num [calculate_safety_score, crime_score_components, averageScore,
      round1, roundHalfEven]
  · norm_num [calculate_safety_score, crime_score_components, averageScore,
      round1, roundHalfEven]

/-- C1 (amended): for inputs built from valid provider metrics, the
Infrastructure and Law-Enforcement overall scores lie in [0, 25];
Crime's `calculate_safety_score` lies in [0, 100], its internal scale. -/
theorem category_score_ranges :
    (∀ d : CrimeData, ValidCrimeData d →
      0 ≤ calculate_safety_score d ∧ calculate_safety_score d ≤ 100) ∧
    (∀ d : InfraData, ValidInfraData d →
      0 ≤ calculate_infrastructure_score d ∧ calculate_infrastructure_score d ≤ 25) ∧
    (∀ d : LawData, ValidLawData d →
      0 ≤ calculate_law_enforcement_score d ∧ calculate_law_enforcement_score d ≤ 25) := by
  refine ⟨?_, ?_, ?_⟩
  · intro d hv
    exact averageScore_bounds (crime_score_components d) 50
      (crime_components_bounds hv) (by norm_num) (by norm_num) round1_zero round1_100
  · intro d hv
    exact averageScore_bounds (infra_score_components d) (25/2)
      (infra_components_bounds hv) (by norm_num) (by norm_num) round1_zero round1_25
  · intro d hv
    exact averageScore_bounds (law_score_components d) (25/2)
      (law_components_bounds hv) (by norm_num) (by norm_num) round1_zero round1_25

/-- Witness for `category_score_ranges` at concrete valid inputs. -/
theorem category_score_ranges_witness :
    (0 ≤ calculate_safety_score { numbeo_data := some { safety_index := some 80 } } ∧
      calculate_safety_score { numbeo_data := some { safety_index := some 80 } } ≤ 100) ∧
    (0 ≤ calculate_infrastructure_score
        { traffic_safety_data := some { road_traffic_deaths_per_100k := some 7 } } ∧
      calculate_infrastructure_score
        { traffic_safety_data := some { road_traffic_deaths_per_100k := some 7 } } ≤ 25) ∧
    (0 ≤ calculate_law_enforcement_score
        { world_bank_governance := some { rule_of_law_percentile := some 70 } } ∧
      calculate_law_enforcement_score
        { world_bank_governance := some { rule_of_law_percentile := some 70 } } ≤ 25) := by
  refine ⟨?_, ?_, ?_⟩
  · exact category_score_ranges.1 _ (by simp [ValidCrimeData]; norm_num)
  · exact category_score_ranges.2.1 _ (by simp [ValidInfraData])
  · exact category_score_ranges.2.2 _ (by simp [ValidLawData]; norm_num)

/-- C2 counterexample: when every Infrastructure provider fails, the
getters return the fixed fallback bundles (CPI 65, traffic deaths 12.0,
healthcare 65.0); scoring that data yields 15.8, not the claimed 12.5. -/
theorem infra_all_providers_failed_not_midpoint :
    calculate_infrastructure_score
      { corruption_perception_index := some (get_fallback_corruption_data "Atlantis")
        traffic_safety_data := some (get_fallback_traffic_data "Atlantis")
        healthcare_system := some (get_fallback_healthcare_data "Atlantis") } = 79/5 ∧
    (79/5 : ℚ) ≠ 25/2 := by
  constructor
  · norm_num [calculate_infrastructure_score, infra_score_components, averageScore,
      get_fallback_corruption_data, get_fallback_traffic_data,
      get_fallback_healthcare_data, round1, roundHalfEven]
    simp
  · norm_num

/-- C2 (amended): with every Infrastructure provider failing, the
evaluator scores the fallback bundles and returns 15.8 for every country;
the 12.5 midpoint arises only when no provider section is present in the
input data at all, so the all-providers-failing composite is not a sum of
four midpoints. -/
theorem infra_fallback_score :
    (∀ country : String,
      calculate_infrastructure_score
        { corruption_perception_index := some (get_fallback_corruption_data country)
          traffic_safety_data := some (get_fallback_traffic_data country)
          healthcare_system := some (get_fallback_healthcare_data country) } = 79/5) ∧
    calculate_infrastructure_score {} = 25/2 := by
  constructor
  · intro country
    norm_num [calculate_infrastructure_score, infra_score_components, averageScore,
      get_fallback_corruption_data, get_fallback_traffic_data,
      get_fallback_healthcare_data, round1, roundHalfEven]
    simp
  · norm_num [calculate_infrastructure_score, infra_score_components, averageScore]

/-- C3 counterexample: on the empty input the Crime calculator returns
50.0 (the midpoint of its internal 0-100 scale), not 12.5. -/
theorem crime_empty_not_12_5 :
    calculate_safety_score {} = 50 ∧ (50 : ℚ) ≠ 25/2 := by
  constructor
  · norm_num [calculate_safety_score, crime_score_components, averageScore]
  · norm_num

/-- C3 (amended): on the empty input, Infrastructure and Law-Enforcement
return the midpoint default 12.5 of their 0-25 scale, while Crime returns
50.0, the midpoint of its internal 0-100 scale. -/
theorem empty_input_defaults :
    calculate_safety_score {} = 50 ∧
    calculate_infrastructure_score {} = 25/2 ∧
    calculate_law_enforcement_score {} = 25/2 := by
  refine ⟨?_, ?_, ?_⟩
  · norm_num [calculate_safety_score, crime_score_components, averageScore]
  · norm_num [calculate_infrastructure_score, infra_score_components, averageScore]
  · norm_num [calculate_law_enforcement_score, law_score_components, averageScore]

/-- `validate_scores` in logical form. -/
theorem validate_scores_eq_true (scores : List (String × ℚ)) :
    validate_scores scores = true ↔
      (scores.length = 4 ∧ ∀ p ∈ scores, 0 ≤ p.2 ∧ p.2 ≤ 25) := by
  unfold validate_scores NUM_CATEGORIES MAX_SCORE_PER_CATEGORY
  simp [List.all_eq_true]

/-- C4: for four in-range category scores the composite total is exactly
their sum, and `get_safety_level` buckets the total scanning thresholds
from the highest down (≥90 Excellent, ≥70 Good, ≥50 Average, ≥30 Caution,
else Dangerous); includes the three boundary scenarios of the claim. -/
theorem total_score_and_safety_levels :
    (∀ scores : List (String × ℚ), scores.length = 4 →
      (∀ p ∈ scores, 0 ≤ p.2 ∧ p.2 ≤ 25) →
      calculate_total_score scores = some (scores.map Prod.snd).sum) ∧
    (∀ t : ℚ,
      (90 ≤ t → get_safety_level t = LEVEL_EXCELLENT) ∧
      (70 ≤ t → t < 90 → get_safety_level t = LEVEL_GOOD) ∧
      (50 ≤ t → t < 70 → get_safety_level t = LEVEL_AVERAGE) ∧
      (30 ≤ t → t < 50 → get_safety_level t = LEVEL_CAUTION) ∧
      (t < 30 → get_safety_level t = LEVEL_DANGEROUS)) ∧
    (calculate_total_score
        [("conflict", 25), ("crime", 25), ("infrastructure", 25), ("law_enforcement", 25)]
        = some 100 ∧
      get_safety_level 100 = LEVEL_EXCELLENT) ∧
    (calculate_total_score
        [("conflict", 0), ("crime", 0), ("infrastructure", 0), ("law_enforcement", 0)]
        = some 0 ∧
      get_safety_level 0 = LEVEL_DANGEROUS) ∧
    (calculate_total_score
        [("conflict", 25), ("crime", 25), ("infrastructure", 25/2), ("law_enforcement", 25/2)]
        = some 75 ∧
      get_safety_level 75 = LEVEL_GOOD) := by
  refine ⟨?_, ?_, ?_, ?_, ?_⟩
  · intro scores h4 hr
    have hv := (validate_scores_eq_true scores).mpr ⟨h4, hr⟩
    simp [calculate_total_score, hv]
  · intro t
    unfold get_safety_level THRESHOLD_EXCELLENT THRESHOLD_GOOD THRESHOLD_AVERAGE
      THRESHOLD_CAUTION
    refine ⟨?_, ?_, ?_, ?_, ?_⟩
    · intro h; rw [if_pos h]
    · intro h1 h2; rw [if_neg (by linarith), if_pos h1]
    · intro h1 h2; rw [if_neg (by linarith), if_neg (by linarith), if_pos h1]
    · intro h1 h2
      rw [if_neg (by linarith), if_neg (by linarith), if_neg (by linarith), if_pos h1]
    · intro h
      rw [if_neg (by linarith), if_neg (by linarith), if_neg (by linarith),
        if_neg (by linarith)]
  · constructor
    · norm_num [calculate_total_score, validate_scores, NUM_CATEGORIES,
        MAX_SCORE_PER_CATEGORY]
    · norm_num [get_safety_level, THRESHOLD_EXCELLENT]
  · constructor
    · norm_num [calculate_total_score, validate_scores, NUM_CATEGORIES,
        MAX_SCORE_PER_CATEGORY]
    · norm_num [get_safety_level, THRESHOLD_EXCELLENT, THRESHOLD_GOOD,
        THRESHOLD_AVERAGE, THRESHOLD_CAUTION]
  · constructor
    · norm_num [calculate_total_score, validate_scores, NUM_CATEGORIES,
        MAX_SCORE_PER_CATEGORY]
    · norm_num [get_safety_level, THRESHOLD_EXCELLENT, THRESHOLD_GOOD]

/-- Witness for `total_score_and_safety_levels` at concrete inputs. -/
theorem total_score_and_safety_levels_witness :
    calculate_total_score
      [("conflict", (25:ℚ)), ("crime", 0), ("infrastructure", 10), ("law_enforcement", 5)]
      = some 40 ∧
    get_safety_level 95 = LEVEL_EXCELLENT ∧
    get_safety_level 30 = LEVEL_CAUTION := by
  refine ⟨?_, ?_, ?_⟩
  · have h := total_score_and_safety_levels.1
      [("conflict", (25:ℚ)), ("crime", 0), ("infrastructure", 10), ("law_enforcement", 5)]
      (by norm_num) (by simp [List.forall_mem_cons]; norm_num)
    norm_num at h
    exact h
  · exact (total_score_and_safety_levels.2.1 95).1 (by norm_num)
  · exact (total_score_and_safety_levels.2.1 30).2.2.2.1 (by norm_num) (by norm_num)

/-- C5: `calculate_total_score` rejects (raises `ValueError`, embedded as
`none`) exactly when `validate_scores` is false, which happens exactly
when the mapping does not consist of 4 entries all within [0, 25]. -/
theorem total_score_rejects_invalid :
    ∀ scores : List (String × ℚ),
      (calculate_total_score scores = none ↔
        ¬ (scores.length = 4 ∧ ∀ p ∈ scores, 0 ≤ p.2 ∧ p.2 ≤ 25)) ∧
      (validate_scores scores = false ↔
        ¬ (scores.length = 4 ∧ ∀ p ∈ scores, 0 ≤ p.2 ∧ p.2 ≤ 25)) := by
  intro scores
  have hval := validate_scores_eq_true scores
  constructor
  · unfold calculate_total_score
    split_ifs with h
    · exact ⟨fun hc => absurd hc (by simp), fun hc => absurd (hval.mp h) hc⟩
    · refine ⟨fun _ => ?_, fun _ => rfl⟩
      rw [← hval]; exact h
  · rw [← hval]
    cases hvb : validate_scores scores <;> simp

/-- C10: validation never inspects the keys: any 4-entry mapping with
values in [0, 25] passes `validate_scores` and is summed by
`calculate_total_score`, whatever its keys are. -/
theorem validation_ignores_keys :
    ∀ scores : List (String × ℚ),
      (scores.map Prod.fst).Nodup →
      scores.length = 4 →
      (∀ p ∈ scores, 0 ≤ p.2 ∧ p.2 ≤ 25) →
      validate_scores scores = true ∧
      calculate_total_score scores = some (scores.map Prod.snd).sum := by
  intro scores _ h4 hr
  have hv := (validate_scores_eq_true scores).mpr ⟨h4, hr⟩
  exact ⟨hv, by simp [calculate_total_score, hv]⟩

/-- Witness for `validation_ignores_keys` with non-category keys. -/
theorem validation_ignores_keys_witness :
    validate_scores [("alpha", (10:ℚ)), ("beta", 0), ("gamma", 25), ("delta", 5)] = true ∧
    calculate_total_score [("alpha", (10:ℚ)), ("beta", 0), ("gamma", 25), ("delta", 5)]
      = some 40 := by
  have h := validation_ignores_keys
    [("alpha", (10:ℚ)), ("beta", 0), ("gamma", 25), ("delta", 5)]
    (by simp) (by norm_num) (by simp [List.forall_mem_cons]; norm_num)
  refine ⟨h.1, ?_⟩
  have h2 := h.2
  norm_num at h2
  exact h2

/-- C7: the Crime homicide component is `max(0, 100 - rate*10)` on the
internal 0-100 scale: it caps at 100 for rate 0 and floors at 0 for every
rate ≥ 10, and the overall score on homicide-only data follows suit. -/
theorem crime_homicide_component_boundaries :
    (∀ r : ℚ, crime_homicide_component r = max 0 (100 - r * 10)) ∧
    crime_homicide_component 0 = 100 ∧
    (∀ r : ℚ, 10 ≤ r → crime_homicide_component r = 0) ∧
    calculate_safety_score
      { unodc_homicide_rate := some { homicide_rate_per_100k := some 0 } } = 100 ∧
    (∀ r : ℚ, 10 ≤ r →
      calculate_safety_score
        { unodc_homicide_rate := some { homicide_rate_per_100k := some r } } = 0) := by
  refine ⟨fun r => rfl, ?_, ?_, ?_, ?_⟩
  · norm_num [crime_homicide_component, max_def]
  · intro r hr
    unfold crime_homicide_component
    rw [max_eq_left (by linarith)]
  · norm_num [calculate_safety_score, crime_score_components, averageScore,
      crime_homicide_component, max_def, round1, roundHalfEven]
  · intro r hr
    have hc : crime_homicide_component r = 0 := by
      unfold crime_homicide_component
      rw [max_eq_left (by linarith)]
    norm_num [calculate_safety_score, crime_score_components, averageScore, hc,
      round1, roundHalfEven]

/-- Witness for `crime_homicide_component_boundaries` at rate 12. -/
theorem crime_homicide_component_boundaries_witness :
    crime_homicide_component 12 = 0 ∧
    calculate_safety_score
      { unodc_homicide_rate := some { homicide_rate_per_100k := some 12 } } = 0 :=
  ⟨crime_homicide_component_boundaries.2.2.1 12 (by norm_num),
   crime_homicide_component_boundaries.2.2.2.2 12 (by norm_num)⟩

/-- C8: the Crime risk classifier applies the homicide thresholds on the
raw rate: 15.0 alone yields violent-crime risk High (高), 7.0 alone
yields Medium (中). -/
theorem crime_risk_classifier_homicide :
    (analyze_travel_safety_risks
      { unodc_homicide_rate :=
          some { homicide_rate_per_100k := some 15 } }).violent_crime_risk = "高" ∧
    (analyze_travel_safety_risks
      { unodc_homicide_rate :=
          some { homicide_rate_per_100k := some 7 } }).violent_crime_risk = "中" := by
  constructor <;> norm_num [analyze_travel_safety_risks]

/-- C9: for every country, the fallback/default bundles carry exactly the
fixed values of the design contract, each tagged with a `data_source`
(or `data_sources`) marking it as fallback data. -/
theorem fallback_bundles_fixed_values :
    ∀ country : String,
      (get_fallback_numbeo_data country).crime_index = some 50 ∧
      (get_fallback_numbeo_data country).safety_index = some 50 ∧
      (get_fallback_numbeo_data country).data_source
        = some "Fallback Data (Numbeo unavailable)" ∧
      (get_fallback_corruption_data country).cpi_score = some 65 ∧
      (get_fallback_corruption_data country).data_source
        = some "Fallback Data (Scraping Failed)" ∧
      (get_fallback_traffic_data country).road_traffic_deaths_per_100k = some 12 ∧
      (get_fallback_traffic_data country).data_source
        = some "Fallback Data (Scraping Failed)" ∧
      (get_fallback_healthcare_data country).healthcare_access_quality_index = some 65 ∧
      (get_fallback_healthcare_data country).data_sources
        = ["Fallback Data (Scraping Failed)"] ∧
      (get_default_gpi_data country).police_reliability_score = some (5/2) ∧
      (get_default_gpi_data country).data_source = some "Default GPI estimates" ∧
      (get_default_worldbank_data country).rule_of_law_percentile = some 60 ∧
      (get_default_worldbank_data country).data_source
        = some "Default World Bank estimates" :=
  fun _ => ⟨rfl, rfl, rfl, rfl, rfl, rfl, rfl, rfl, rfl, rfl, rfl, rfl, rfl⟩

/-- Reduction helper: mapping over a present option yields a singleton. -/
theorem toList_map_some {α : Type} (f : α → ℚ) (a : α) :
    ((some a).map f).toList = [f a] := rfl

/-- C6: each category score calculator is monotone in each raw metric,
holding everything else fixed: raising a better-is-higher metric
(safety index, CPI, healthcare index, rule-of-law percentile, public
trust) cannot lower the category score, and raising a better-is-lower
metric (peace score, homicide rate, traffic deaths, police reliability
score, police corruption) cannot raise it. -/
theorem metric_monotonicity :
    (∀ (n : NumbeoData) (g : Option GpiCrimeData) (u : Option UnodcData) (x y : ℚ),
      x ≤ y →
      calculate_safety_score
        { numbeo_data := some { n with safety_index := some x }
          global_peace_index := g, unodc_homicide_rate := u } ≤
      calculate_safety_score
        { numbeo_data := some { n with safety_index := some y }
          global_peace_index := g, unodc_homicide_rate := u }) ∧
    (∀ (nd : Option NumbeoData) (u : Option UnodcData) (x y : ℚ), x ≤ y →
      calculate_safety_score
        { numbeo_data := nd, global_peace_index := some { peace_score := some y }
          unodc_homicide_rate := u } ≤
      calculate_safety_score
        { numbeo_data := nd, global_peace_index := some { peace_score := some x }
          unodc_homicide_rate := u }) ∧
    (∀ (nd : Option NumbeoData) (g : Option GpiCrimeData) (x y : ℚ), x ≤ y →
      calculate_safety_score
        { numbeo_data := nd, global_peace_index := g
          unodc_homicide_rate := some { homicide_rate_per_100k := some y } } ≤
      calculate_safety_score
        { numbeo_data := nd, global_peace_index := g
          unodc_homicide_rate := some { homicide_rate_per_100k := some x } }) ∧
    (∀ (c : CorruptionData) (t : Option TrafficData) (h : Option HealthcareData)
        (x y : ℚ), x ≤ y →
      calculate_infrastructure_score
        { corruption_perception_index := some { c with cpi_score := some x }
          traffic_safety_data := t, healthcare_system := h } ≤
      calculate_infrastructure_score
        { corruption_perception_index := some { c with cpi_score := some y }
          traffic_safety_data := t, healthcare_system := h }) ∧
    (∀ (c : Option CorruptionData) (t : TrafficData) (h : Option HealthcareData)
        (x y : ℚ), x ≤ y →
      calculate_infrastructure_score
        { corruption_perception_index := c
          traffic_safety_data := some { t with road_traffic_deaths_per_100k := some y }
          healthcare_system := h } ≤
      calculate_infrastructure_score
        { corruption_perception_index := c
          traffic_safety_data := some { t with road_traffic_deaths_per_100k := some x }
          healthcare_system := h }) ∧
    (∀ (c : Option CorruptionData) (t : Option TrafficData) (h : HealthcareData)
        (x y : ℚ), x ≤ y →
      calculate_infrastructure_score
        { corruption_perception_index := c, traffic_safety_data := t
          healthcare_system := some { h with healthcare_access_quality_index := some x } } ≤
      calculate_infrastructure_score
        { corruption_perception_index := c, traffic_safety_data := t
          healthcare_system := some { h with healthcare_access_quality_index := some y } }) ∧
    (∀ (g : GpiLawData) (w : Option WorldBankData) (p : Option PoliceTrustData)
        (x y : ℚ), x ≤ y →
      calculate_law_enforcement_score
        { global_peace_index_data := some { g with police_reliability_score := some y }
          world_bank_governance := w, police_trust_indicators := p } ≤
      calculate_law_enforcement_score
        { global_peace_index_data := some { g with police_reliability_score := some x }
          world_bank_governance := w, police_trust_indicators := p }) ∧
    (∀ (g : Option GpiLawData) (w : WorldBankData) (p : Option PoliceTrustData)
        (x y : ℚ), x ≤ y →
      calculate_law_enforcement_score
        { global_peace_index_data := g
          world_bank_governance := some { w with rule_of_law_percentile := some x }
          police_trust_indicators := p } ≤
      calculate_law_enforcement_score
        { global_peace_index_data := g
          world_bank_governance := some { w with rule_of_law_percentile := some y }
          police_trust_indicators := p }) ∧
    (∀ (g : Option GpiLawData) (w : Option WorldBankData) (p : PoliceTrustData)
        (x y : ℚ), x ≤ y →
      calculate_law_enforcement_score
        { global_peace_index_data := g, world_bank_governance := w
          police_trust_indicators := some { p with public_trust_in_police := some x } } ≤
      calculate_law_enforcement_score
        { global_peace_index_data := g, world_bank_governance := w
          police_trust_indicators := some { p with public_trust_in_police := some y } }) ∧
    (∀ (g : Option GpiLawData) (w : Option WorldBankData) (p : PoliceTrustData)
        (x y : ℚ), x ≤ y →
      calculate_law_enforcement_score
        { global_peace_index_data := g, world_bank_governance := w
          police_trust_indicators := some { p with corruption_in_police_force := some y } } ≤
      calculate_law_enforcement_score
        { global_peace_index_data := g, world_bank_governance := w
          police_trust_indicators := some { p with corruption_in_police_force := some x } }) := by
  refine ⟨?_, ?_, ?_, ?_, ?_, ?_, ?_, ?_, ?_, ?_⟩
  · intro n g u x y hxy
    apply averageScore_mono
    · simp [crime_score_components]
    · simp [crime_score_components, List.sum_append]
      linarith
  · intro nd u x y hxy
    have hcomp : crime_peace_component y ≤ crime_peace_component x := by
      unfold crime_peace_component
      exact max_le_max le_rfl (by linarith)
    apply averageScore_mono
    · simp [crime_score_components]
    · simp [crime_score_components, List.sum_append]
      linarith
  · intro nd g x y hxy
    have hcomp : crime_homicide_component y ≤ crime_homicide_component x := by
      unfold crime_homicide_component
      exact max_le_max le_rfl (by linarith)
    apply averageScore_mono
    · simp [crime_score_components]
    · simp [crime_score_components, List.sum_append]
      linarith
  · intro c t h x y hxy
    apply averageScore_mono
    · simp [infra_score_components]
    · simp [infra_score_components, List.sum_append]
      linarith
  · intro c t h x y hxy
    have hcomp : max 0 (25 - y * 25 / 30) ≤ max 0 (25 - x * 25 / 30) :=
      max_le_max le_rfl (by linarith)
    apply averageScore_mono
    · simp [infra_score_components]
    · simp only [infra_score_components, toList_map_some, Option.getD_some,
        List.sum_append, List.sum_cons, List.sum_nil, add_zero]
      linarith
  · intro c t h x y hxy
    apply averageScore_mono
    · simp [infra_score_components]
    · simp [infra_score_components, List.sum_append]
      linarith
  · intro g w p x y hxy
    have hcomp : max 0 (25 - (y - 1) * (25/4)) ≤ max 0 (25 - (x - 1) * (25/4)) :=
      max_le_max le_rfl (by linarith)
    apply averageScore_mono
    · simp [law_score_components]
    · simp only [law_score_components, toList_map_some, Option.getD_some,
        List.sum_append, List.sum_cons, List.sum_nil, add_zero]
      linarith
  · intro g w p x y hxy
    apply averageScore_mono
    · simp [law_score_components]
    · simp [law_score_components, List.sum_append]
      linarith
  · intro g w p x y hxy
    apply averageScore_mono
    · simp [law_score_components]
    · simp [law_score_components, List.sum_append]
      linarith
  · intro g w p x y hxy
    apply averageScore_mono
    · simp [law_score_components]
    · simp [law_score_components, List.sum_append]
      linarith

/-- Witness for `metric_monotonicity` at concrete metric values. -/
theorem metric_monotonicity_witness :
    (calculate_safety_score { numbeo_data := some { safety_index := some 40 } } ≤
      calculate_safety_score { numbeo_data := some { safety_index := some 60 } }) ∧
    (calculate_safety_score { global_peace_index := some { peace_score := some 3 } } ≤
      calculate_safety_score { global_peace_index := some { peace_score := some 2 } }) ∧
    (calculate_safety_score
        { unodc_homicide_rate := some { homicide_rate_per_100k := some 8 } } ≤
      calculate_safety_score
        { unodc_homicide_rate := some { homicide_rate_per_100k := some 4 } }) ∧
    (calculate_infrastructure_score
        { corruption_perception_index := some { cpi_score := some 30 } } ≤
      calculate_infrastructure_score
        { corruption_perception_index := some { cpi_score := some 50 } }) ∧
    (calculate_infrastructure_score
        { traffic_safety_data := some { road_traffic_deaths_per_100k := some 20 } } ≤
      calculate_infrastructure_score
        { traffic_safety_data := some { road_traffic_deaths_per_100k := some 5 } }) ∧
    (calculate_infrastructure_score
        { healthcare_system := some { healthcare_access_quality_index := some 55 } } ≤
      calculate_infrastructure_score
        { healthcare_system := some { healthcare_access_quality_index := some 90 } }) ∧
    (calculate_law_enforcement_score
        { global_peace_index_data := some { police_reliability_score := some 4 } } ≤
      calculate_law_enforcement_score
        { global_peace_index_data := some { police_reliability_score := some 2 } }) ∧
    (calculate_law_enforcement_score
        { world_bank_governance := some { rule_of_law_percentile := some 40 } } ≤
      calculate_law_enforcement_score
        { world_bank_governance := some { rule_of_law_percentile := some 80 } }) ∧
    (calculate_law_enforcement_score
        { police_trust_indicators := some { public_trust_in_police := some 30 } } ≤
      calculate_law_enforcement_score
        { police_trust_indicators := some { public_trust_in_police := some 70 } }) ∧
    (calculate_law_enforcement_score
        { police_trust_indicators := some { corruption_in_police_force := some 60 } } ≤
      calculate_law_enforcement_score
        { police_trust_indicators := some { corruption_in_police_force := some 20 } }) := by
  refine ⟨?_, ?_, ?_, ?_, ?_, ?_, ?_, ?_, ?_, ?_⟩
  · exact metric_monotonicity.1 {} none none 40 60 (by norm_num)
  · exact metric_monotonicity.2.1 none none 2 3 (by norm_num)
  · exact metric_monotonicity.2.2.1 none none 4 8 (by norm_num)
  · exact metric_monotonicity.2.2.2.1 {} none none 30 50 (by norm_num)
  · exact metric_monotonicity.2.2.2.2.1 none {} none 5 20 (by norm_num)
  · exact metric_monotonicity.2.2.2.2.2.1 none none {} 55 90 (by norm_num)
  · exact metric_monotonicity.2.2.2.2.2.2.1 {} none none 2 4 (by norm_num)
  · exact metric_monotonicity.2.2.2.2.2.2.2.1 none {} none 40 80 (by norm_num)
  · exact metric_monotonicity.2.2.2.2.2.2.2.2.1 none none {} 30 70 (by norm_num)
  · exact metric_monotonicity.2.2.2.2.2.2.2.2.2 none none {} 20 60 (by norm_num)
